import Mathlib

/-!
Shallow embedding of the donation/payment-confirmation workflow of the
band-portal backend (routes/public.js donate + webhook handlers,
routes/admin.js donation-status override, routes/events.js subscribe),
with the relational store modelled as a list of rows.
-/

namespace BandPortal

/-- Row of the `donations` table (spec section 6: donations(id, donor_name,
phone, amount, transaction_id UNIQUE, status, created_at)); `created_at` is
immutable and irrelevant to the claims, so it is omitted. `status` is kept as
a raw string because the handlers write raw strings to it. -/
structure Donation where
  id : Nat
  donor_name : String
  phone : String
  amount : ℚ
  transaction_id : String
  status : String
deriving DecidableEq, Repr

/-- Row of the `subscribers` table: `id` is `Date.now().toString()`, `email`
is UNIQUE. -/
structure Subscriber where
  id : String
  email : String
deriving DecidableEq, Repr

/-- JavaScript `a || b` on string-or-undefined values: `a` unless `a` is
absent (`undefined`) or the empty string (both falsy). -/
def jsOr : Option String → Option String → Option String
  | some s, b => if s = "" then b else some s
  | none, b => b

/-- JavaScript `String.prototype.toLowerCase` restricted to its ASCII
behaviour (all payloads in scope are ASCII). -/
def jsToLower (s : String) : String := ⟨s.data.map Char.toLower⟩

/-- Decides whether the first character list is an initial segment of the
second. -/
def prefMatch : List Char → List Char → Bool
  | [], _ => true
  | _ :: _, [] => false
  | a :: as, b :: bs => a = b && prefMatch as bs

/-- Decides whether the first character list occurs contiguously inside the
second. -/
def subMatch (needle : List Char) : List Char → Bool
  | [] => prefMatch needle []
  | b :: bs => prefMatch needle (b :: bs) || subMatch needle bs

/-- JavaScript `hay.includes(needle)`: substring containment. -/
def containsSub (hay needle : String) : Bool := subMatch needle.data hay.data

-- ===== Webhook confirmation handler (routes/public.js, POST /webhook/mtn) =====

/-- Body of a webhook delivery; each field may be absent. Non-string values
are coerced to strings by the handler via `.toString()`, so strings model all
payloads in scope. -/
structure WebhookPayload where
  transactionId : Option String
  externalId : Option String
  reference : Option String
  transactionRef : Option String
  status : Option String
  paymentStatus : Option String
deriving DecidableEq, Repr

/-- Embeds `payload.transactionId || payload.externalId || payload.reference
|| payload.transactionRef` (left-associated, as JavaScript evaluates it). -/
def webhookTransactionId (p : WebhookPayload) : Option String :=
  jsOr (jsOr (jsOr p.transactionId p.externalId) p.reference) p.transactionRef

/-- Embeds `(payload.status || payload.paymentStatus || '').toString().toLowerCase()`. -/
def webhookStatusRaw (p : WebhookPayload) : String :=
  jsToLower ((jsOr p.status p.paymentStatus).getD "")

/-- Embeds the status normalization of the webhook handler:
`statusRaw.includes('success') || statusRaw.includes('completed')` gives
`'confirmed'`, else `statusRaw.includes('pending')` gives `'pending'`, else
`'failed'`. -/
def normalizeWebhookStatus (p : WebhookPayload) : String :=
  let statusRaw := webhookStatusRaw p
  if containsSub statusRaw "success" || containsSub statusRaw "completed" then "confirmed"
  else if containsSub statusRaw "pending" then "pending"
  else "failed"

/-- Row effect of `UPDATE donations SET status = ? WHERE transaction_id = ?`
on one row. -/
def setStatusIfMatch (tid st : String) (d : Donation) : Donation :=
  if d.transaction_id = tid then { d with status := st } else d

/-- Response of the webhook route: HTTP status plus the `message` field of
the JSON body. -/
structure WebhookResult where
  httpStatus : Nat
  message : String
deriving DecidableEq, Repr

/-- Embeds POST /webhook/mtn: extract the transaction id (first truthy of
four fields), normalize the status text, answer 400 with no state change
when the id is falsy, otherwise run the unconditional UPDATE and answer 200.
`res.json` without an explicit status sends HTTP 200. -/
def webhookMtn (p : WebhookPayload) (store : List Donation) :
    WebhookResult × List Donation :=
  let st := normalizeWebhookStatus p
  match webhookTransactionId p with
  | none => (⟨400, "Missing transaction id"⟩, store)
  | some tid =>
    if tid = "" then (⟨400, "Missing transaction id"⟩, store)
    else (⟨200, "Webhook processed"⟩, store.map (setStatusIfMatch tid st))

-- ===== Donation initiation handler (routes/public.js, POST /donate) =====

/-- Body of a donation initiation request. `none` models a field that is
absent or not of the type the validator checks for (`isString` for the two
text fields, `isFloat` for `amount`). JavaScript floats in scope are exact
decimals, modelled as rationals. -/
structure DonateRequest where
  donor_name : Option String
  phone : Option String
  amount : Option ℚ
deriving DecidableEq, Repr

/-- One entry of an express-validator error array; only its `path` (the field
name) and `msg` matter to the claims. -/
structure FieldError where
  path : String
  msg : String
deriving DecidableEq, Repr

/-- Errors of a `body(path).isString().notEmpty()` chain: an absent or
non-string value fails both validators, an empty string fails `notEmpty`
only, a non-empty string passes. -/
def strFieldErrors (path : String) (v : Option String) : List FieldError :=
  match v with
  | none => [⟨path, "Invalid value"⟩, ⟨path, "Invalid value"⟩]
  | some s => if s = "" then [⟨path, "Invalid value"⟩] else []

/-- Errors of the `body('amount').isFloat` validator with option `gt: 0`:
absent, non-numeric, or not strictly positive fails. -/
def amountFieldErrors (v : Option ℚ) : List FieldError :=
  match v with
  | none => [⟨"amount", "Invalid value"⟩]
  | some a => if 0 < a then [] else [⟨"amount", "Invalid value"⟩]

/-- Embeds `validationResult(req)` for the three donate validators, in
declaration order. -/
def donateValidationErrors (r : DonateRequest) : List FieldError :=
  strFieldErrors "donor_name" r.donor_name ++ strFieldErrors "phone" r.phone ++
    amountFieldErrors r.amount

/-- Renders a rational the way the handler interpolates the amount into a
string (abstracting JavaScript number formatting; integral in all inputs in
scope). -/
def jsNumberToString (a : ℚ) : String :=
  if a.den = 1 then toString a.num else toString a.num ++ "/" ++ toString a.den

/-- Return value of `createMtnPaymentRequest` (utils/mtn.js): the stub
resolves immediately with this object; its delayed timer callback is outside
the state modelled here. -/
structure MtnResponse where
  success : Bool
  message : String
  transactionId : String
  redirectUrl : String
deriving DecidableEq, Repr

/-- Embeds the immediate result of `createMtnPaymentRequest` in utils/mtn.js. -/
def createMtnPaymentRequest (amount : ℚ) (phone transactionId : String) : MtnResponse :=
  { success := true
    message := "MTN payment request simulated"
    transactionId := transactionId
    redirectUrl := "mtn://pay?phone=" ++ phone ++ "&amount=" ++ jsNumberToString amount ++
      "&ref=" ++ transactionId }

/-- Embeds `'tx_' + Date.now() + Math.random().toString(36).slice(2, 9)`:
the clock reading and the random suffix are inputs of the model. -/
def mkTransactionId (now : Nat) (rand : String) : String :=
  "tx_" ++ toString now ++ rand

/-- Surrogate id the store assigns to the next inserted row (auto-increment;
rows in scope are never deleted, so successive ids suffice). -/
def nextDonationId (store : List Donation) : Nat := store.length + 1

/-- Response of the donate route: HTTP status plus the possible JSON body
fields (`errors` of the 400 branch; `message`, `transactionId`, `mtnResp` of
the success branch). -/
structure DonateResult where
  httpStatus : Nat
  errors : List FieldError
  message : Option String
  transactionId : Option String
  mtnResp : Option MtnResponse
deriving DecidableEq, Repr

/-- Embeds POST /donate: run the validators and answer 400 with the full
error array on failure; otherwise generate a transaction id, insert the
pending row, call the gateway stub, and answer with `res.json` (HTTP 200).
The `transaction_id` column is UNIQUE, so an id collision makes the INSERT
reject and the catch block answers 500 with no insert. -/
def donate (r : DonateRequest) (now : Nat) (rand : String) (store : List Donation) :
    DonateResult × List Donation :=
  let errs := donateValidationErrors r
  if errs = [] then
    match r.donor_name, r.phone, r.amount with
    | some dn, some ph, some a =>
      let transactionId := mkTransactionId now rand
      if transactionId ∈ store.map (fun d => d.transaction_id) then
        (⟨500, [], some "Server error", none, none⟩, store)
      else
        (⟨200, [], some "Donation initiated", some transactionId,
          some (createMtnPaymentRequest a ph transactionId)⟩,
         store ++ [⟨nextDonationId store, dn, ph, a, transactionId, "pending"⟩])
    | _, _, _ => (⟨500, [], some "Server error", none, none⟩, store)
  else
    (⟨400, errs, none, none, none⟩, store)

-- ===== Admin donation-status override (routes/admin.js) =====

/-- Response of the admin status route: HTTP status plus the `message` body
field. -/
structure AdminResult where
  httpStatus : Nat
  message : String
deriving DecidableEq, Repr

/-- Embeds PUT /donations/:id/status of routes/admin.js. The route attaches
the validator chain `body('status').isIn(['pending', 'confirmed', 'failed'])`
as middleware, but the handler body never reads `validationResult(req)`
(every other validated route in the file does), so the UPDATE runs for any
status value and the route answers 200. -/
def adminUpdateDonationStatus (id : Nat) (status : String) (store : List Donation) :
    AdminResult × List Donation :=
  (⟨200, "Status updated"⟩,
   store.map (fun d => if d.id = id then { d with status := status } else d))

-- ===== Subscribe endpoint (routes/events.js, POST /subscribe) =====

/-- Response of the subscribe route: HTTP status plus whichever of the
`error` and `message` body fields the branch sends. -/
structure SubscribeResult where
  httpStatus : Nat
  error : Option String
  message : Option String
deriving DecidableEq, Repr

/-- Embeds the test of `/^\S+@\S+\.\S+$/` against a string: every character
is non-whitespace and there are positions i < j with an at-sign at i and a
dot at j leaving a non-empty run before i, between i and j, and after j. -/
def validEmail (s : String) : Bool :=
  let cs := s.data
  cs.all (fun c => !c.isWhitespace) &&
    (List.range cs.length).any (fun i =>
      (List.range cs.length).any (fun j =>
        decide (1 ≤ i) && decide (i + 1 < j) && decide (j + 1 < cs.length) &&
          (cs.getD i ' ' = '@') && (cs.getD j ' ' = '.')))

/-- Embeds POST /subscribe of routes/events.js: a falsy or regex-failing
email answers 400; the INSERT hits the UNIQUE constraint on `email` when the
address is already stored (`ER_DUP_ENTRY`, answered 409 with no change);
otherwise the row is inserted with `id = Date.now().toString()` and the
route answers 201. -/
def subscribe (email : Option String) (now : Nat) (store : List Subscriber) :
    SubscribeResult × List Subscriber :=
  match email with
  | none => (⟨400, some "Valid email required", none⟩, store)
  | some e =>
    if e = "" || !(validEmail e) then (⟨400, some "Valid email required", none⟩, store)
    else if e ∈ store.map (fun s => s.email) then
      (⟨409, some "Email already subscribed", none⟩, store)
    else
      (⟨201, none, some "Subscribed successfully"⟩, store ++ [⟨toString now, e⟩])

-- ===== Spec-side definitions =====

/-- Status mapping written from the claim wording: lower-case the payload
status (or paymentStatus) field; containing "success" or "completed" gives
confirmed, else containing "pending" gives pending, any other value or an
absent field gives failed. -/
def specWebhookStatus (status paymentStatus : Option String) : String :=
  let raw := jsToLower ((jsOr status paymentStatus).getD "")
  if containsSub raw "success" || containsSub raw "completed" then "confirmed"
  else if containsSub raw "pending" then "pending"
  else "failed"

/-- Truth of the donor-name or phone constraint being violated (field absent,
non-string, or empty). -/
def strViolated (v : Option String) : Bool :=
  match v with
  | none => true
  | some s => decide (s = "")

/-- Truth of the amount constraint being violated (field absent, non-numeric,
or not strictly positive). -/
def amountViolated (v : Option ℚ) : Bool :=
  match v with
  | none => true
  | some a => decide (a ≤ 0)

/-- Names of the donate request fields whose constraint is violated. -/
def violatedFields (r : DonateRequest) : List String :=
  (if strViolated r.donor_name then ["donor_name"] else []) ++
    (if strViolated r.phone then ["phone"] else []) ++
    (if amountViolated r.amount then ["amount"] else [])

-- ===== Concrete fixtures =====

/-- Donation row in the pending state with transaction id tx_1. -/
def pendingDonation : Donation := ⟨1, "Alice", "0788000000", 1000, "tx_1", "pending"⟩

/-- Donation row already in the terminal confirmed state. -/
def confirmedDonation : Donation := ⟨1, "Alice", "0788000000", 1000, "tx_1", "confirmed"⟩

/-- Webhook payload confirming transaction tx_1. -/
def confirmPayloadTx1 : WebhookPayload := ⟨some "tx_1", none, none, none, some "COMPLETED", none⟩

/-- Webhook payload reporting failure of transaction tx_1. -/
def failPayloadTx1 : WebhookPayload := ⟨some "tx_1", none, none, none, some "FAILED", none⟩

/-- Webhook payload whose transaction id matches no stored row. -/
def unknownPayload : WebhookPayload :=
  ⟨some "tx_unknown", none, none, none, some "COMPLETED", none⟩

/-- Webhook payload with every accepted id field absent or empty. -/
def noIdPayload : WebhookPayload := ⟨none, some "", none, some "", some "COMPLETED", none⟩

-- ===== Helper lemmas =====

lemma webhookMtn_of_some (p : WebhookPayload) (store : List Donation) (tid : String)
    (h1 : webhookTransactionId p = some tid) (h2 : tid ≠ "") :
    webhookMtn p store =
      (⟨200, "Webhook processed"⟩, store.map (setStatusIfMatch tid (normalizeWebhookStatus p))) := by
  simp [webhookMtn, h1, h2]

lemma setStatusIfMatch_tid (tid st : String) (d : Donation) :
    (setStatusIfMatch tid st d).transaction_id = d.transaction_id := by
  unfold setStatusIfMatch
  by_cases h : d.transaction_id = tid <;> simp [h]

lemma setStatusIfMatch_idem (tid st : String) (d : Donation) :
    setStatusIfMatch tid st (setStatusIfMatch tid st d) = setStatusIfMatch tid st d := by
  unfold setStatusIfMatch
  by_cases h : d.transaction_id = tid <;> simp [h]

lemma map_setStatus_idem (tid st : String) :
    ∀ store : List Donation,
      (store.map (setStatusIfMatch tid st)).map (setStatusIfMatch tid st) =
        store.map (setStatusIfMatch tid st)
  | [] => rfl
  | d :: ds => by
    simp only [List.map_cons, List.cons.injEq]
    exact ⟨setStatusIfMatch_idem tid st d, map_setStatus_idem tid st ds⟩

lemma map_setStatus_of_not_mem (tid st : String) :
    ∀ store : List Donation, tid ∉ store.map (fun d => d.transaction_id) →
      store.map (setStatusIfMatch tid st) = store
  | [], _ => rfl
  | d :: ds, h => by
    have hd : d.transaction_id ≠ tid := by
      intro e
      exact h (by simp [e])
    have hds : tid ∉ ds.map (fun d => d.transaction_id) := by
      intro m
      exact h (by simp [m])
    simp [setStatusIfMatch, hd, map_setStatus_of_not_mem tid st ds hds]

-- ===== Claims =====

/-- C1: the claim says a record in a terminal state (confirmed or failed) is
never changed by a later webhook delivery; the unconditional UPDATE of the
webhook handler overwrites a confirmed record back to failed, so the code
violates the state machine the spec states as the intent. -/
theorem webhook_overwrites_terminal :
    confirmedDonation.status = "confirmed" ∧
      (webhookMtn failPayloadTx1 [confirmedDonation]).2.map (fun d => d.status) = ["failed"] ∧
      (webhookMtn failPayloadTx1 [confirmedDonation]).1.httpStatus = 200 := by
  decide

/-- C2: for a payload carrying a transaction id, the status written to every
matching donation row is the one obtained by lower-casing the status (or
paymentStatus) field and substring matching: success or completed gives
confirmed, pending gives pending, anything else or absence gives failed. -/
theorem webhook_status_mapping (p : WebhookPayload) (store : List Donation) (tid : String)
    (h1 : webhookTransactionId p = some tid) (h2 : tid ≠ "") :
    (webhookMtn p store).2 =
      store.map (setStatusIfMatch tid (specWebhookStatus p.status p.paymentStatus)) := by
  have hspec : specWebhookStatus p.status p.paymentStatus = normalizeWebhookStatus p := rfl
  rw [webhookMtn_of_some p store tid h1 h2, hspec]

/-- C2 witness: the confirming payload for tx_1 drives the pending row to
confirmed. -/
theorem webhook_status_mapping_witness :
    (webhookMtn confirmPayloadTx1 [pendingDonation]).2 =
      [{ pendingDonation with status := "confirmed" }] :=
  (webhook_status_mapping confirmPayloadTx1 [pendingDonation] "tx_1" rfl
    (by decide)).trans (by decide)

/-- C3: delivering the same webhook payload twice leaves every donation
record after the second delivery exactly as it was after the first. -/
theorem webhook_idempotent (p : WebhookPayload) (store : List Donation) :
    (webhookMtn p (webhookMtn p store).2).2 = (webhookMtn p store).2 := by
  cases h : webhookTransactionId p with
  | none => simp [webhookMtn, h]
  | some tid =>
    by_cases ht : tid = ""
    · simp [webhookMtn, h, ht]
    · rw [webhookMtn_of_some p store tid h ht,
        webhookMtn_of_some p (store.map (setStatusIfMatch tid (normalizeWebhookStatus p))) tid h ht,
        map_setStatus_idem tid (normalizeWebhookStatus p) store]

/-- C4: when every accepted transaction-id field is absent or empty, the
webhook route answers 400 with message "Missing transaction id" and the
store is unchanged. -/
theorem webhook_missing_id (p : WebhookPayload) (store : List Donation)
    (h1 : p.transactionId = none ∨ p.transactionId = some "")
    (h2 : p.externalId = none ∨ p.externalId = some "")
    (h3 : p.reference = none ∨ p.reference = some "")
    (h4 : p.transactionRef = none ∨ p.transactionRef = some "") :
    (webhookMtn p store).1 = ⟨400, "Missing transaction id"⟩ ∧
      (webhookMtn p store).2 = store := by
  rcases h1 with h1 | h1 <;> rcases h2 with h2 | h2 <;> rcases h3 with h3 | h3 <;>
    rcases h4 with h4 | h4 <;>
    simp [webhookMtn, webhookTransactionId, jsOr, h1, h2, h3, h4]

/-- C4 witness: a payload with only empty and absent id fields is rejected
and the single pending row survives untouched. -/
theorem webhook_missing_id_witness :
    (webhookMtn noIdPayload [pendingDonation]).1 = ⟨400, "Missing transaction id"⟩ ∧
      (webhookMtn noIdPayload [pendingDonation]).2 = [pendingDonation] :=
  webhook_missing_id noIdPayload [pendingDonation] (Or.inl rfl) (Or.inr rfl) (Or.inl rfl)
    (Or.inr rfl)

/-- C9 counterexample: for a payload whose transaction id matches no stored
row, the webhook route answers 200, not the 404 the claim asserts. -/
theorem webhook_unknown_id_no_404 :
    (webhookMtn unknownPayload [pendingDonation]).1.httpStatus = 200 ∧
      (webhookMtn unknownPayload [pendingDonation]).1.httpStatus ≠ 404 := by
  decide

/-- C9 amended: a webhook payload whose transaction id matches no stored
donation is not reported as a 404; the handler runs the UPDATE against no
rows, leaves the store unchanged, and answers 200 with message "Webhook
processed". -/
theorem webhook_unknown_id_processed (p : WebhookPayload) (store : List Donation) (tid : String)
    (h1 : webhookTransactionId p = some tid) (h2 : tid ≠ "")
    (h3 : tid ∉ store.map (fun d => d.transaction_id)) :
    (webhookMtn p store).1 = ⟨200, "Webhook processed"⟩ ∧
      (webhookMtn p store).2 = store := by
  rw [webhookMtn_of_some p store tid h1 h2]
  exact ⟨rfl, map_setStatus_of_not_mem tid (normalizeWebhookStatus p) store h3⟩

/-- C9 amended witness: the unknown-id payload against the single pending
row: 200 and no change. -/
theorem webhook_unknown_id_processed_witness :
    (webhookMtn unknownPayload [pendingDonation]).1 = ⟨200, "Webhook processed"⟩ ∧
      (webhookMtn unknownPayload [pendingDonation]).2 = [pendingDonation] :=
  webhook_unknown_id_processed unknownPayload [pendingDonation] "tx_unknown" rfl (by decide)
    (by decide)

/-- Donation initiation request satisfying every validator. -/
def validDonateReq : DonateRequest := ⟨some "Alice", some "0788000000", some 1000⟩

/-- Donation initiation request violating the donor-name and amount
constraints at once. -/
def invalidDonateReq : DonateRequest := ⟨none, some "0788000000", some (-5)⟩

/-- Stored subscriber row used by the subscribe witnesses. -/
def subAlice : Subscriber := ⟨"1", "alice@mail.com"⟩

lemma strFieldErrors_path_mem (path : String) (v : Option String)
    (hv : strViolated v = true) :
    path ∈ (strFieldErrors path v).map (fun e => e.path) := by
  cases v with
  | none => simp [strFieldErrors]
  | some s =>
    have hs : s = "" := by simpa [strViolated] using hv
    simp [strFieldErrors, hs]

lemma amountFieldErrors_path_mem (v : Option ℚ) (hv : amountViolated v = true) :
    "amount" ∈ (amountFieldErrors v).map (fun e => e.path) := by
  cases v with
  | none => simp [amountFieldErrors]
  | some a =>
    have hs : a ≤ 0 := by simpa [amountViolated] using hv
    simp [amountFieldErrors, not_lt.mpr hs]

lemma violated_mem_error_paths (r : DonateRequest) :
    ∀ f ∈ violatedFields r, f ∈ (donateValidationErrors r).map (fun e => e.path) := by
  intro f hf
  simp only [violatedFields, List.mem_append] at hf
  simp only [donateValidationErrors, List.map_append, List.mem_append]
  rcases hf with (hf | hf) | hf
  · by_cases h : strViolated r.donor_name = true
    · have : f = "donor_name" := by simpa [h] using hf
      subst this
      exact Or.inl (Or.inl (strFieldErrors_path_mem _ _ h))
    · simp [h] at hf
  · by_cases h : strViolated r.phone = true
    · have : f = "phone" := by simpa [h] using hf
      subst this
      exact Or.inl (Or.inr (strFieldErrors_path_mem _ _ h))
    · simp [h] at hf
  · by_cases h : amountViolated r.amount = true
    · have : f = "amount" := by simpa [h] using hf
      subst this
      exact Or.inr (amountFieldErrors_path_mem _ h)
    · simp [h] at hf

/-- C5: a valid initiation request whose generated transaction id is fresh
appends exactly one new donation row, in status pending, with a transaction
id no earlier row carries. Freshness of the generated id resolves the
model's clock and randomness inputs; the spec calls the generated id unique
with overwhelming probability and the UNIQUE column rejects the remaining
collisions. -/
theorem donate_creates_pending (dn ph : String) (a : ℚ) (now : Nat) (rand : String)
    (store : List Donation) (hdn : dn ≠ "") (hph : ph ≠ "") (ha : 0 < a)
    (hfresh : mkTransactionId now rand ∉ store.map (fun d => d.transaction_id)) :
    (donate ⟨some dn, some ph, some a⟩ now rand store).2 =
      store ++ [⟨nextDonationId store, dn, ph, a, mkTransactionId now rand, "pending"⟩] ∧
      mkTransactionId now rand ∉ store.map (fun d => d.transaction_id) := by
  have herr : donateValidationErrors ⟨some dn, some ph, some a⟩ = [] := by
    simp [donateValidationErrors, strFieldErrors, amountFieldErrors, hdn, hph, ha]
  refine ⟨?_, hfresh⟩
  simp [donate, herr, hfresh]

/-- C5 witness: the valid request against the empty store creates the single
pending row tx_5abc. -/
theorem donate_creates_pending_witness :
    (donate validDonateReq 5 "abc" []).2 =
      [⟨1, "Alice", "0788000000", 1000, "tx_5abc", "pending"⟩] :=
  ((donate_creates_pending "Alice" "0788000000" 1000 5 "abc" [] (by decide) (by decide)
    (by decide) (by decide)).1).trans (by decide)

/-- C7 counterexample: a request passing every validator is answered with
HTTP 200 (plain res.json), not the 201 the claim asserts. -/
theorem donate_not_201 :
    donateValidationErrors validDonateReq = [] ∧
      (donate validDonateReq 5 "abc" []).1.httpStatus = 200 ∧
      (donate validDonateReq 5 "abc" []).1.httpStatus ≠ 201 := by
  decide

/-- C7 amended: a valid initiation request with a fresh generated id is
answered with HTTP 200 and a body carrying message, transactionId and
mtnResp; a request failing validation is answered with HTTP 400 and the
full error array. -/
theorem donate_response_codes (r : DonateRequest) (now : Nat) (rand : String)
    (store : List Donation) (dn ph : String) (a : ℚ) :
    (r = ⟨some dn, some ph, some a⟩ → dn ≠ "" → ph ≠ "" → 0 < a →
        mkTransactionId now rand ∉ store.map (fun d => d.transaction_id) →
        (donate r now rand store).1 =
          ⟨200, [], some "Donation initiated", some (mkTransactionId now rand),
            some (createMtnPaymentRequest a ph (mkTransactionId now rand))⟩) ∧
      (donateValidationErrors r ≠ [] →
        (donate r now rand store).1 = ⟨400, donateValidationErrors r, none, none, none⟩) := by
  constructor
  · rintro rfl hdn hph ha hfresh
    have herr : donateValidationErrors ⟨some dn, some ph, some a⟩ = [] := by
      simp [donateValidationErrors, strFieldErrors, amountFieldErrors, hdn, hph, ha]
    simp [donate, herr, hfresh]
  · intro hne
    simp [donate, hne]

/-- C7 amended witness: the valid request is answered 200 with the full
body; the invalid request is answered 400 with its error array. -/
theorem donate_response_codes_witness :
    (donate validDonateReq 5 "abc" []).1 =
        ⟨200, [], some "Donation initiated", some "tx_5abc",
          some (createMtnPaymentRequest 1000 "0788000000" "tx_5abc")⟩ ∧
      (donate invalidDonateReq 5 "abc" []).1 =
        ⟨400, donateValidationErrors invalidDonateReq, none, none, none⟩ :=
  ⟨((donate_response_codes validDonateReq 5 "abc" [] "Alice" "0788000000" 1000).1 rfl
      (by decide) (by decide) (by decide) (by decide)).trans (by decide),
    (donate_response_codes invalidDonateReq 5 "abc" [] "" "" 0).2 (by decide)⟩

/-- C8: a request violating at least two constraints is answered 400 and
every violated field name occurs among the paths of the returned error
array, not only the first. -/
theorem donate_enumerates_errors (r : DonateRequest) (now : Nat) (rand : String)
    (store : List Donation) (h : 2 ≤ (violatedFields r).length) :
    (donate r now rand store).1.httpStatus = 400 ∧
      ∀ f ∈ violatedFields r, f ∈ (donate r now rand store).1.errors.map (fun e => e.path) := by
  have hvne : violatedFields r ≠ [] := by
    intro e
    rw [e] at h
    simp at h
  have hne : donateValidationErrors r ≠ [] := by
    obtain ⟨f, hf⟩ := List.exists_mem_of_ne_nil _ hvne
    have hm := violated_mem_error_paths r f hf
    intro he
    rw [he] at hm
    simp at hm
  have hres : (donate r now rand store).1 = ⟨400, donateValidationErrors r, none, none, none⟩ := by
    simp [donate, hne]
  rw [hres]
  exact ⟨rfl, violated_mem_error_paths r⟩

/-- C8 witness: the request with a missing donor name and a negative amount
is answered 400 and both field names occur in the error paths. -/
theorem donate_enumerates_errors_witness :
    (donate invalidDonateReq 5 "abc" []).1.httpStatus = 400 ∧
      "donor_name" ∈ (donate invalidDonateReq 5 "abc" []).1.errors.map (fun e => e.path) ∧
      "amount" ∈ (donate invalidDonateReq 5 "abc" []).1.errors.map (fun e => e.path) := by
  have h := donate_enumerates_errors invalidDonateReq 5 "abc" [] (by decide)
  exact ⟨h.1, h.2 "donor_name" (by decide), h.2 "amount" (by decide)⟩

/-- C6: the admin status route writes a value outside the pending, confirmed,
failed enumeration and answers 200, because its isIn validator result is
never read; the claim of rejection fails on this input. -/
theorem admin_status_not_validated :
    "garbage" ∉ (["pending", "confirmed", "failed"] : List String) ∧
      (adminUpdateDonationStatus 1 "garbage" [pendingDonation]).1 = ⟨200, "Status updated"⟩ ∧
      (adminUpdateDonationStatus 1 "garbage" [pendingDonation]).2.map (fun d => d.status) =
        ["garbage"] := by
  decide

/-- C10: a subscribe request whose email is already stored is answered 409
with error "Email already subscribed" and the subscriber store is unchanged.
The hypothesis that every stored email passes the address check is the store
invariant maintained by this route, the only writer in scope. -/
theorem subscribe_duplicate (email : String) (now : Nat) (store : List Subscriber)
    (hwf : ∀ s ∈ store, validEmail s.email = true)
    (hmem : email ∈ store.map (fun s => s.email)) :
    subscribe (some email) now store = (⟨409, some "Email already subscribed", none⟩, store) := by
  obtain ⟨s, hs, hse⟩ := List.mem_map.mp hmem
  have hv : validEmail email = true := hse ▸ hwf s hs
  have hne : email ≠ "" := by
    intro e
    rw [e] at hv
    exact absurd hv (by decide)
  simp [subscribe, hne, hv, hmem]

/-- C10 witness: re-subscribing the stored address is answered 409 and the
store is unchanged. -/
theorem subscribe_duplicate_witness :
    subscribe (some "alice@mail.com") 7 [subAlice] =
      (⟨409, some "Email already subscribed", none⟩, [subAlice]) :=
  subscribe_duplicate "alice@mail.com" 7 [subAlice] (by decide) (by decide)

end BandPortal
